import Mathlib

/-!
Typed configuration resolution of beacon-kit

A shallow embedding of `config/flags/flags.go` (the flag-key constants) and of
`types/config/config.go` (default configuration, resolution of a configuration
from an option source, flag registration), followed by the properties proved
about them.

Conventions of the embedding:

* Go `string` is `String`; `uint64` and `primitives.Epoch` are `Nat`;
  `time.Duration` is `Int`, a number of nanoseconds.  The resolver only moves
  these values around, it performs no arithmetic on them.
* A Go result pair `(*Config, error)` is a record holding an `Option Config`
  (`none` is the nil pointer) and an `Option ε` (`none` is the nil error).
* The calls issued to the option source are recorded, in call order, in the
  `lookups` field of the result.
* A call that may panic ends in an `Outcome`; a registration on the flag set
  of a command panics when the name is registered already, and the flag set
  keeps what was registered before the panic.
-/

namespace flags

/-- Beacon Kit root flag. -/
def beaconKitRoot : String := "beacon-kit."

/-- Execution client namespace. -/
def engineRoot : String := beaconKitRoot ++ "engine."
def RPCDialURL : String := engineRoot ++ "rpc-dial-url"
def RPCRetries : String := engineRoot ++ "rpc-retries"
def RPCTimeout : String := engineRoot ++ "rpc-timeout"
def RPCStartupCheckInterval : String := engineRoot ++ "rpc-startup-check-interval"
def RPCHealthCheckInteval : String := engineRoot ++ "rpc-health-check-interval"
def RPCJWTRefreshInterval : String := engineRoot ++ "rpc-jwt-refresh-interval"
def JWTSecretPath : String := engineRoot ++ "jwt-secret-path"
def RequiredChainID : String := engineRoot ++ "required-chain-id"

/-- Beacon config namespace. -/
def beaconConfigRoot : String := beaconKitRoot ++ "beacon-config."

/-- Fork config namespace. -/
def forkRoot : String := beaconConfigRoot ++ "forks."
def DenebForkEpoch : String := forkRoot ++ "deneb-fork-epoch"

/-- Validator config namespace. -/
def validator : String := beaconKitRoot ++ "validator"
def SuggestedFeeRecipient : String := validator ++ "suggested-fee-recipient"
def Graffiti : String := validator ++ "graffiti"
def PrepareAllPayloads : String := validator ++ "prepare-all-payloads"

/-- ABCI config namespace. -/
def abciRoot : String := beaconKitRoot ++ "abci."
def BeaconBlockPosition : String := abciRoot ++ "beacon-block-proposal-position"

/-- The thirteen exported flag keys, in declaration order. -/
def exportedKeys : List String :=
  [RPCDialURL, RPCRetries, RPCTimeout, RPCStartupCheckInterval, RPCHealthCheckInteval,
   RPCJWTRefreshInterval, JWTSecretPath, RequiredChainID, DenebForkEpoch,
   SuggestedFeeRecipient, Graffiti, PrepareAllPayloads, BeaconBlockPosition]

/-- The six unexported namespace prefixes, in declaration order. -/
def namespaceRoots : List String :=
  [beaconKitRoot, engineRoot, beaconConfigRoot, forkRoot, validator, abciRoot]

end flags

namespace config

/-- Go `time.Duration`: a signed count of nanoseconds. -/
abbrev Duration := Int

/-- Go `time.Second`. -/
def Second : Duration := 1000000000

/-- Client is the configuration struct for the execution client. -/
structure Client where
  RPCDialURL : String
  RPCTimeout : Duration
  RPCRetries : Nat
  JWTSecretPath : String
  RequiredChainID : Nat
  deriving DecidableEq, Repr

/-- Beacon holds the fork epochs. -/
structure Beacon where
  AltairForkEpoch : Nat
  BellatrixForkEpoch : Nat
  CapellaForkEpoch : Nat
  DenebForkEpoch : Nat
  deriving DecidableEq, Repr

/-- Config is the main configuration struct. -/
structure Config where
  ExecutionClient : Client
  BeaconConfig : Beacon
  deriving DecidableEq, Repr

/-- DefaultBeaconConfig returns the default fork configuration. -/
def DefaultBeaconConfig : Beacon :=
  { AltairForkEpoch := 0
    BellatrixForkEpoch := 0
    CapellaForkEpoch := 0
    DenebForkEpoch := 4294967295 }

/-- DefaultConfig returns the default configuration. -/
def DefaultConfig : Config :=
  { ExecutionClient :=
      { RPCDialURL := "http://localhost:8551"
        RPCTimeout := Second * 3
        RPCRetries := 3
        JWTSecretPath := "../reth/jwt.hex"
        RequiredChainID := 7 }
    BeaconConfig := DefaultBeaconConfig }

/-- The strings of the exported constants `flags.AltairForkEpoch`,
`flags.BellatrixForkEpoch` and `flags.CapellaForkEpoch`.  They are read by
`readConfigFromAppOptsParser` but not declared in the available `flags.go`,
so the resolver takes them as a parameter. -/
structure ForkFlags where
  AltairForkEpoch : String
  BellatrixForkEpoch : String
  CapellaForkEpoch : String
  deriving DecidableEq, Repr

/-- Modelled from the spec: the option source capability of the hosting
framework, "a key-value lookup object supporting typed getters --
get-string(key), get-unsigned-integer(key), get-duration(key), get-epoch(key)
-- each returning a value or a key missing / wrong type error".  The
declaration of the source and the conversions are not part of the available
code; `ε` is the type of the errors. -/
structure AppOptions (ε : Type) where
  getString : String → Except ε String
  getUint64 : String → Except ε Nat
  getTimeDuration : String → Except ε Duration
  getEpoch : String → Except ε Nat

/-- AppOptionsParser wraps an option source (`AppOptionsParser{AppOptions: opts}`). -/
structure AppOptionsParser (ε : Type) where
  AppOptions : AppOptions ε

/-- The parser method `GetString`. -/
def AppOptionsParser.GetString {ε : Type} (parser : AppOptionsParser ε) (key : String) :
    Except ε String :=
  parser.AppOptions.getString key

/-- The parser method `GetUint64`. -/
def AppOptionsParser.GetUint64 {ε : Type} (parser : AppOptionsParser ε) (key : String) :
    Except ε Nat :=
  parser.AppOptions.getUint64 key

/-- The parser method `GetTimeDuration`. -/
def AppOptionsParser.GetTimeDuration {ε : Type} (parser : AppOptionsParser ε) (key : String) :
    Except ε Duration :=
  parser.AppOptions.getTimeDuration key

/-- The parser method `GetEpoch`. -/
def AppOptionsParser.GetEpoch {ε : Type} (parser : AppOptionsParser ε) (key : String) :
    Except ε Nat :=
  parser.AppOptions.getEpoch key

/-- The four typed getters of the parser. -/
inductive Getter where
  | GetString
  | GetUint64
  | GetTimeDuration
  | GetEpoch
  deriving DecidableEq, Repr

/-- One call made to the parser: which getter, with which key. -/
structure Call where
  getter : Getter
  key : String
  deriving DecidableEq, Repr

/-- The Go result pair `(*Config, error)` together with the calls made to the
parser, in call order. -/
structure ReadResult (ε : Type) where
  conf : Option Config
  err : Option ε
  lookups : List Call

/-- The function `readConfigFromAppOptsParser`: nine typed lookups in source
order, each one returning `nil, err` when it fails; `log` is the list of parser
calls made so far. -/
def readConfigFromAppOptsParser {ε : Type} (ff : ForkFlags) (parser : AppOptionsParser ε) :
    ReadResult ε :=
  let log := [Call.mk .GetString flags.RPCDialURL]
  match parser.GetString flags.RPCDialURL with
  | .error err => ⟨none, some err, log⟩
  | .ok rpcDialURL =>
  let log := log ++ [Call.mk .GetUint64 flags.RPCRetries]
  match parser.GetUint64 flags.RPCRetries with
  | .error err => ⟨none, some err, log⟩
  | .ok rpcRetries =>
  let log := log ++ [Call.mk .GetTimeDuration flags.RPCTimeout]
  match parser.GetTimeDuration flags.RPCTimeout with
  | .error err => ⟨none, some err, log⟩
  | .ok rpcTimeout =>
  let log := log ++ [Call.mk .GetString flags.JWTSecretPath]
  match parser.GetString flags.JWTSecretPath with
  | .error err => ⟨none, some err, log⟩
  | .ok jwtSecretPath =>
  let log := log ++ [Call.mk .GetUint64 flags.RequiredChainID]
  match parser.GetUint64 flags.RequiredChainID with
  | .error err => ⟨none, some err, log⟩
  | .ok requiredChainID =>
  let log := log ++ [Call.mk .GetEpoch ff.AltairForkEpoch]
  match parser.GetEpoch ff.AltairForkEpoch with
  | .error err => ⟨none, some err, log⟩
  | .ok altairForkEpoch =>
  let log := log ++ [Call.mk .GetEpoch ff.BellatrixForkEpoch]
  match parser.GetEpoch ff.BellatrixForkEpoch with
  | .error err => ⟨none, some err, log⟩
  | .ok bellatrixForkEpoch =>
  let log := log ++ [Call.mk .GetEpoch ff.CapellaForkEpoch]
  match parser.GetEpoch ff.CapellaForkEpoch with
  | .error err => ⟨none, some err, log⟩
  | .ok capellaForkEpoch =>
  let log := log ++ [Call.mk .GetEpoch flags.DenebForkEpoch]
  match parser.GetEpoch flags.DenebForkEpoch with
  | .error err => ⟨none, some err, log⟩
  | .ok denebForkEpoch =>
    ⟨some
      { ExecutionClient :=
          { RPCDialURL := rpcDialURL
            RPCTimeout := rpcTimeout
            RPCRetries := rpcRetries
            JWTSecretPath := jwtSecretPath
            RequiredChainID := requiredChainID }
        BeaconConfig :=
          { AltairForkEpoch := altairForkEpoch
            BellatrixForkEpoch := bellatrixForkEpoch
            CapellaForkEpoch := capellaForkEpoch
            DenebForkEpoch := denebForkEpoch } },
     none, log⟩

/-- ReadConfigFromAppOpts reads the configuration options from the given
application options. -/
def ReadConfigFromAppOpts {ε : Type} (ff : ForkFlags) (opts : AppOptions ε) : ReadResult ε :=
  readConfigFromAppOptsParser ff { AppOptions := opts }

/-- How a call that may panic ends: it returns a value or panics with one. -/
inductive Outcome (ε α : Type) where
  | returned (value : α)
  | panicked (value : ε)
  deriving DecidableEq, Repr

/-- MustReadConfigFromAppOpts reads the configuration options and panics with
the error if the configuration cannot be read. -/
def MustReadConfigFromAppOpts {ε : Type} (ff : ForkFlags) (opts : AppOptions ε) :
    Outcome ε (Option Config) :=
  let r := ReadConfigFromAppOpts ff opts
  match r.err with
  | some err => .panicked err
  | none => .returned r.conf

/-- The typed default value of a registered command-line flag. -/
inductive FlagValue where
  | string (value : String)
  | uint64 (value : Nat)
  | duration (value : Duration)
  deriving DecidableEq, Repr

/-- One flag registration: name, typed default value and usage text. -/
structure Flag where
  name : String
  value : FlagValue
  usage : String
  deriving DecidableEq, Repr

/-- The flag set of a command: its registered flags, in registration order. -/
abbrev FlagSet := List Flag

/-- Go `string`, under a name that stays usable next to the method `String`. -/
abbrev GoString := String

/-- The value a registration panics with: the flag library reports
`flag redefined` together with the name of the flag. -/
inductive FlagPanic where
  | redefined (name : String)
  deriving DecidableEq, Repr

/-- The method `AddFlag` of the flag library, which every typed registration
ends in: it panics when a flag of that name is already in the set and leaves
the set as it is, and appends the flag otherwise.  Flag names are compared as
they are (no normalisation function is set on the flag set). -/
def FlagSet.AddFlag (fs : FlagSet) (flag : Flag) : Outcome FlagPanic FlagSet :=
  if flag.name ∈ fs.map Flag.name then .panicked (.redefined flag.name)
  else .returned (fs ++ [flag])

/-- Registration of a string flag (`Flags().String`). -/
def FlagSet.String (fs : FlagSet) (name value usage : GoString) : Outcome FlagPanic FlagSet :=
  fs.AddFlag ⟨name, .string value, usage⟩

/-- Registration of an unsigned 64-bit flag (`Flags().Uint64`). -/
def FlagSet.Uint64 (fs : FlagSet) (name : GoString) (value : Nat) (usage : GoString) :
    Outcome FlagPanic FlagSet :=
  fs.AddFlag ⟨name, .uint64 value, usage⟩

/-- Registration of a duration flag (`Flags().Duration`). -/
def FlagSet.Duration (fs : FlagSet) (name : GoString) (value : config.Duration)
    (usage : GoString) : Outcome FlagPanic FlagSet :=
  fs.AddFlag ⟨name, .duration value, usage⟩

/-- How a call of `AddExecutionClientFlags` ends: the flag set of the command
afterwards, and the panic value when the call panicked (`none` when it
returned). -/
structure Registered where
  flagSet : FlagSet
  panicValue : Option FlagPanic
  deriving DecidableEq, Repr

/-- AddExecutionClientFlags registers the execution client flags on the flag
set of the start command.  The five registrations are made in source order on
the one flag set of the command; a registration that panics ends the call and
leaves the registrations made before it. -/
def AddExecutionClientFlags (startCmd : FlagSet) : Registered :=
  let defaultCfg := DefaultConfig.ExecutionClient
  match startCmd.String flags.JWTSecretPath defaultCfg.JWTSecretPath
      "path to the execution client secret" with
  | .panicked p => ⟨startCmd, some p⟩
  | .returned fs1 =>
  match fs1.String flags.RPCDialURL defaultCfg.RPCDialURL "rpc dial url" with
  | .panicked p => ⟨fs1, some p⟩
  | .returned fs2 =>
  match fs2.Uint64 flags.RPCRetries defaultCfg.RPCRetries "rpc retries" with
  | .panicked p => ⟨fs2, some p⟩
  | .returned fs3 =>
  match fs3.Duration flags.RPCTimeout defaultCfg.RPCTimeout "rpc timeout" with
  | .panicked p => ⟨fs3, some p⟩
  | .returned fs4 =>
  match fs4.Uint64 flags.RequiredChainID defaultCfg.RequiredChainID "required chain id" with
  | .panicked p => ⟨fs4, some p⟩
  | .returned fs5 => ⟨fs5, none⟩

/-! ### The statements of the specification, as definitions -/

/-- The fixed order of the specification: the nine typed lookups, execution
client fields first, then the fork epochs in upgrade order. -/
def fixedOrder (ff : ForkFlags) : List Call :=
  [⟨.GetString, flags.RPCDialURL⟩, ⟨.GetUint64, flags.RPCRetries⟩,
   ⟨.GetTimeDuration, flags.RPCTimeout⟩, ⟨.GetString, flags.JWTSecretPath⟩,
   ⟨.GetUint64, flags.RequiredChainID⟩, ⟨.GetEpoch, ff.AltairForkEpoch⟩,
   ⟨.GetEpoch, ff.BellatrixForkEpoch⟩, ⟨.GetEpoch, ff.CapellaForkEpoch⟩,
   ⟨.GetEpoch, flags.DenebForkEpoch⟩]

/-- The error of a typed lookup, `none` when the lookup succeeds. -/
def errorOf {ε α : Type} : Except ε α → Option ε
  | .error e => some e
  | .ok _ => none

/-- The error, if any, that a parser answers a call with. -/
def callError {ε : Type} (parser : AppOptionsParser ε) (c : Call) : Option ε :=
  match c.getter with
  | .GetString => errorOf (parser.GetString c.key)
  | .GetUint64 => errorOf (parser.GetUint64 c.key)
  | .GetTimeDuration => errorOf (parser.GetTimeDuration c.key)
  | .GetEpoch => errorOf (parser.GetEpoch c.key)

/-- The errors of the nine typed lookups, in the fixed order. -/
def lookupErrors {ε : Type} (ff : ForkFlags) (parser : AppOptionsParser ε) : List (Option ε) :=
  (fixedOrder ff).map (callError parser)

/-- The first error of a list of lookup outcomes. -/
def firstError {ε : Type} : List (Option ε) → Option ε
  | [] => none
  | some e :: _ => some e
  | none :: rest => firstError rest

/-- The calls of a list up to and including the first one that fails. -/
def throughFirstFailure {ε : Type} (parser : AppOptionsParser ε) : List Call → List Call
  | [] => []
  | c :: rest =>
    match callError parser c with
    | some _ => [c]
    | none => c :: throughFirstFailure parser rest

/-- The five registrations of the specification, one per execution-client
field: the flag key of the field, the value of the same field of
`DefaultConfig` under the type of the field, and the help text. -/
def executionClientFlags : List Flag :=
  [⟨flags.JWTSecretPath, .string DefaultConfig.ExecutionClient.JWTSecretPath,
      "path to the execution client secret"⟩,
   ⟨flags.RPCDialURL, .string DefaultConfig.ExecutionClient.RPCDialURL, "rpc dial url"⟩,
   ⟨flags.RPCRetries, .uint64 DefaultConfig.ExecutionClient.RPCRetries, "rpc retries"⟩,
   ⟨flags.RPCTimeout, .duration DefaultConfig.ExecutionClient.RPCTimeout, "rpc timeout"⟩,
   ⟨flags.RequiredChainID, .uint64 DefaultConfig.ExecutionClient.RequiredChainID,
      "required chain id"⟩]

/-- Sample strings for the three fork keys that `flags.go` does not declare. -/
def scenarioForkFlags : ForkFlags :=
  { AltairForkEpoch := flags.forkRoot ++ "altair-fork-epoch"
    BellatrixForkEpoch := flags.forkRoot ++ "bellatrix-fork-epoch"
    CapellaForkEpoch := flags.forkRoot ++ "capella-fork-epoch" }

/-- The option source of the round-trip scenario; every other key is missing. -/
def scenarioOpts : AppOptions String :=
  { getString := fun key =>
      if key = flags.RPCDialURL then .ok "http://node:8551"
      else if key = flags.JWTSecretPath then .ok "/etc/jwt.hex"
      else .error ("missing key: " ++ key)
    getUint64 := fun key =>
      if key = flags.RPCRetries then .ok 5
      else if key = flags.RequiredChainID then .ok 80085
      else .error ("missing key: " ++ key)
    getTimeDuration := fun key =>
      if key = flags.RPCTimeout then .ok (2 * Second)
      else .error ("missing key: " ++ key)
    getEpoch := fun key =>
      if key = flags.DenebForkEpoch then .ok 100
      else if key = scenarioForkFlags.AltairForkEpoch then .ok 0
      else if key = scenarioForkFlags.BellatrixForkEpoch then .ok 0
      else if key = scenarioForkFlags.CapellaForkEpoch then .ok 0
      else .error ("missing key: " ++ key) }

/-- The configuration that the round-trip scenario serialises. -/
def scenarioConfig : Config :=
  { ExecutionClient :=
      { RPCDialURL := "http://node:8551"
        RPCTimeout := 2 * Second
        RPCRetries := 5
        JWTSecretPath := "/etc/jwt.hex"
        RequiredChainID := 80085 }
    BeaconConfig :=
      { AltairForkEpoch := 0
        BellatrixForkEpoch := 0
        CapellaForkEpoch := 0
        DenebForkEpoch := 100 } }

/-- The scenario source with `rpc-retries` holding a text that is no number. -/
def badRetriesOpts : AppOptions String :=
  { scenarioOpts with
    getUint64 := fun key =>
      if key = flags.RPCRetries then .error "unable to cast \"abc\" of type string to uint64"
      else scenarioOpts.getUint64 key }

/-- A source in which only the dial URL is missing. -/
def noDialURLOpts : AppOptions String :=
  { scenarioOpts with
    getString := fun key =>
      if key = flags.JWTSecretPath then .ok "/etc/jwt.hex"
      else .error ("missing key: " ++ key) }

/-! ### Lemmas on the resolver -/

/-- The resolver run on the nine lookup outcomes: a failing lookup ends it. -/
theorem read_characterisation {ε : Type} (ff : ForkFlags) (opts : AppOptions ε) :
    (ReadConfigFromAppOpts ff opts).err = firstError (lookupErrors ff ⟨opts⟩) ∧
    (ReadConfigFromAppOpts ff opts).lookups =
      throughFirstFailure ⟨opts⟩ (fixedOrder ff) ∧
    ((ReadConfigFromAppOpts ff opts).err = none ↔
      (ReadConfigFromAppOpts ff opts).conf ≠ none) := by
  simp only [ReadConfigFromAppOpts, readConfigFromAppOptsParser, lookupErrors, fixedOrder,
    List.map, throughFirstFailure, callError, AppOptionsParser.GetString,
    AppOptionsParser.GetUint64, AppOptionsParser.GetTimeDuration, AppOptionsParser.GetEpoch]
  rcases h1 : opts.getString flags.RPCDialURL with e | v <;> simp [firstError, errorOf]
  rcases h2 : opts.getUint64 flags.RPCRetries with e | v <;> simp [firstError, errorOf]
  rcases h3 : opts.getTimeDuration flags.RPCTimeout with e | v <;> simp [firstError, errorOf]
  rcases h4 : opts.getString flags.JWTSecretPath with e | v <;> simp [firstError, errorOf]
  rcases h5 : opts.getUint64 flags.RequiredChainID with e | v <;> simp [firstError, errorOf]
  rcases h6 : opts.getEpoch ff.AltairForkEpoch with e | v <;> simp [firstError, errorOf]
  rcases h7 : opts.getEpoch ff.BellatrixForkEpoch with e | v <;> simp [firstError, errorOf]
  rcases h8 : opts.getEpoch ff.CapellaForkEpoch with e | v <;> simp [firstError, errorOf]
  rcases h9 : opts.getEpoch flags.DenebForkEpoch with e | v <;> simp [firstError, errorOf]

/-- No error is found exactly when every outcome is a success. -/
theorem firstError_eq_none_iff {ε : Type} (l : List (Option ε)) :
    firstError l = none ↔ ∀ x ∈ l, x = none := by
  induction l with
  | nil => simp [firstError]
  | cons x rest ih =>
    cases x with
    | none => simp [firstError, ih]
    | some e => simp [firstError]

/-- The first error is the error at an index before which nothing fails. -/
theorem firstError_of_first {ε : Type} (l : List (Option ε)) (i : Nat) (e : ε)
    (hi : l[i]? = some (some e)) (hbefore : ∀ j, j < i → l[j]? = some none) :
    firstError l = some e := by
  induction l generalizing i with
  | nil => simp at hi
  | cons x rest ih =>
    cases i with
    | zero =>
      simp at hi
      subst hi
      simp [firstError]
    | succ n =>
      have h0 := hbefore 0 (Nat.succ_pos n)
      simp at h0
      subst h0
      simp only [firstError]
      apply ih n
      · simpa using hi
      · intro j hj
        have := hbefore (j + 1) (Nat.succ_lt_succ hj)
        simpa using this

/-- The calls through the first failure are an initial segment. -/
theorem throughFirstFailure_prefix {ε : Type} (parser : AppOptionsParser ε) (l : List Call) :
    throughFirstFailure parser l <+: l := by
  induction l with
  | nil => simp [throughFirstFailure]
  | cons c rest ih =>
    simp only [throughFirstFailure]
    cases callError parser c with
    | none => simpa using ih
    | some e => simp

/-- When no call fails, every call is made. -/
theorem throughFirstFailure_all {ε : Type} (parser : AppOptionsParser ε) (l : List Call)
    (h : ∀ c ∈ l, callError parser c = none) : throughFirstFailure parser l = l := by
  induction l with
  | nil => simp [throughFirstFailure]
  | cons c rest ih =>
    have hc : callError parser c = none := h c (List.mem_cons_self _ _)
    simp only [throughFirstFailure, hc]
    rw [ih (fun d hd => h d (List.mem_cons_of_mem _ hd))]

/-- The calls through the first failure are the fixed calls up to its index. -/
theorem throughFirstFailure_take {ε : Type} (parser : AppOptionsParser ε) (l : List Call)
    (i : Nat) (e : ε) (hi : (l.map (callError parser))[i]? = some (some e))
    (hbefore : ∀ j, j < i → (l.map (callError parser))[j]? = some none) :
    throughFirstFailure parser l = l.take (i + 1) := by
  induction l generalizing i with
  | nil => simp at hi
  | cons c rest ih =>
    cases i with
    | zero =>
      simp at hi
      simp [throughFirstFailure, hi]
    | succ n =>
      have h0 := hbefore 0 (Nat.succ_pos n)
      simp at h0
      simp only [throughFirstFailure, h0, List.take_succ_cons]
      congr 1
      apply ih n
      · simpa using hi
      · intro j hj
        have := hbefore (j + 1) (Nat.succ_lt_succ hj)
        simpa using this

/-- A resolution without error has made all nine calls. -/
theorem read_lookups_of_ok {ε : Type} (ff : ForkFlags) (opts : AppOptions ε)
    (hok : (ReadConfigFromAppOpts ff opts).err = none) :
    (ReadConfigFromAppOpts ff opts).lookups = fixedOrder ff := by
  obtain ⟨herr, hlook, _⟩ := read_characterisation ff opts
  rw [hlook]
  apply throughFirstFailure_all
  intro c hc
  rw [herr, firstError_eq_none_iff] at hok
  exact hok _ (List.mem_map_of_mem _ hc)

/-- A resolution with an error returns the nil configuration. -/
theorem read_conf_none_of_err {ε : Type} (ff : ForkFlags) (opts : AppOptions ε)
    (herr : (ReadConfigFromAppOpts ff opts).err ≠ none) :
    (ReadConfigFromAppOpts ff opts).conf = none := by
  obtain ⟨_, _, hconf⟩ := read_characterisation ff opts
  by_contra hne
  exact herr (hconf.mpr hne)

end config

/-! ### The flag keys -/

/-- C5: the execution-client, fork and ABCI flag constants are exactly the
strings listed by the specification, and each one is the concatenation of the
root `beacon-kit.`, its subsystem namespace and its leaf name. -/
theorem flags_engine_fork_abci_exact :
    flags.RPCDialURL = "beacon-kit.engine.rpc-dial-url" ∧
    flags.RPCRetries = "beacon-kit.engine.rpc-retries" ∧
    flags.RPCTimeout = "beacon-kit.engine.rpc-timeout" ∧
    flags.RPCStartupCheckInterval = "beacon-kit.engine.rpc-startup-check-interval" ∧
    flags.RPCHealthCheckInteval = "beacon-kit.engine.rpc-health-check-interval" ∧
    flags.RPCJWTRefreshInterval = "beacon-kit.engine.rpc-jwt-refresh-interval" ∧
    flags.JWTSecretPath = "beacon-kit.engine.jwt-secret-path" ∧
    flags.RequiredChainID = "beacon-kit.engine.required-chain-id" ∧
    flags.DenebForkEpoch = "beacon-kit.beacon-config.forks.deneb-fork-epoch" ∧
    flags.BeaconBlockPosition = "beacon-kit.abci.beacon-block-proposal-position" ∧
    flags.RPCDialURL = "beacon-kit." ++ "engine." ++ "rpc-dial-url" ∧
    flags.RPCRetries = "beacon-kit." ++ "engine." ++ "rpc-retries" ∧
    flags.RPCTimeout = "beacon-kit." ++ "engine." ++ "rpc-timeout" ∧
    flags.RPCStartupCheckInterval = "beacon-kit." ++ "engine." ++ "rpc-startup-check-interval" ∧
    flags.RPCHealthCheckInteval = "beacon-kit." ++ "engine." ++ "rpc-health-check-interval" ∧
    flags.RPCJWTRefreshInterval = "beacon-kit." ++ "engine." ++ "rpc-jwt-refresh-interval" ∧
    flags.JWTSecretPath = "beacon-kit." ++ "engine." ++ "jwt-secret-path" ∧
    flags.RequiredChainID = "beacon-kit." ++ "engine." ++ "required-chain-id" ∧
    flags.DenebForkEpoch = "beacon-kit." ++ "beacon-config.forks." ++ "deneb-fork-epoch" ∧
    flags.BeaconBlockPosition = "beacon-kit." ++ "abci." ++ "beacon-block-proposal-position" := by
  decide

/-- C4: the strings that the three validator-namespace constants evaluate to.
The namespace `validator` has no trailing dot, so none of the three keys has a
dot between `validator` and its leaf name; `SuggestedFeeRecipient` and
`Graffiti` are not the dotted strings of the specification. -/
theorem flags_validator_keys_lack_dot :
    flags.validator = "beacon-kit.validator" ∧
    flags.SuggestedFeeRecipient = "beacon-kit.validatorsuggested-fee-recipient" ∧
    flags.Graffiti = "beacon-kit.validatorgraffiti" ∧
    flags.PrepareAllPayloads = "beacon-kit.validatorprepare-all-payloads" ∧
    flags.SuggestedFeeRecipient ≠ "beacon-kit.validator.suggested-fee-recipient" ∧
    flags.Graffiti ≠ "beacon-kit.validator.graffiti" := by
  decide

/-- C6: the thirteen exported flag keys are pairwise different strings, and
none of them is one of the six bare namespace prefixes. -/
theorem flags_exported_keys_distinct :
    flags.exportedKeys.Nodup ∧
    flags.exportedKeys.length = 13 ∧
    ∀ key ∈ flags.exportedKeys, key ∉ flags.namespaceRoots := by
  decide

namespace config

/-! ### Defaults -/

/-- C1: `DefaultConfig` is a constant: it is exactly the configuration with
dial URL `http://localhost:8551`, a timeout of 3 seconds, 3 retries, JWT path
`../reth/jwt.hex`, required chain ID 7 and the fork epochs of
`DefaultBeaconConfig`, which are 0, 0, 0 and 4294967295.  All numbers fit
their Go types. -/
theorem DefaultConfig_exact :
    DefaultConfig =
      { ExecutionClient :=
          { RPCDialURL := "http://localhost:8551"
            RPCTimeout := 3000000000
            RPCRetries := 3
            JWTSecretPath := "../reth/jwt.hex"
            RequiredChainID := 7 }
        BeaconConfig :=
          { AltairForkEpoch := 0
            BellatrixForkEpoch := 0
            CapellaForkEpoch := 0
            DenebForkEpoch := 4294967295 } } ∧
    DefaultConfig.BeaconConfig = DefaultBeaconConfig ∧
    DefaultBeaconConfig.AltairForkEpoch = 0 ∧
    DefaultBeaconConfig.BellatrixForkEpoch = 0 ∧
    DefaultBeaconConfig.CapellaForkEpoch = 0 ∧
    DefaultBeaconConfig.DenebForkEpoch = 4294967295 ∧
    DefaultConfig.ExecutionClient.RPCTimeout = 3 * Second ∧
    DefaultConfig.ExecutionClient.RPCTimeout < 2 ^ 63 ∧
    DefaultBeaconConfig.DenebForkEpoch = 2 ^ 32 - 1 := by
  decide

/-! ### Resolution -/

/-- C2: `ReadConfigFromAppOpts` returns an error exactly when one of the nine
typed lookups of the fixed order fails; the error is then the one of the first
failing lookup and the configuration is nil.  In particular, when exactly one
lookup fails, its error is returned whatever the others answer. -/
theorem ReadConfigFromAppOpts_error_is_first_failure {ε : Type} (ff : ForkFlags)
    (opts : AppOptions ε) :
    ((ReadConfigFromAppOpts ff opts).err ≠ none ↔
      ∃ c ∈ fixedOrder ff, callError ⟨opts⟩ c ≠ none) ∧
    (ReadConfigFromAppOpts ff opts).err = firstError (lookupErrors ff ⟨opts⟩) ∧
    ((ReadConfigFromAppOpts ff opts).err ≠ none → (ReadConfigFromAppOpts ff opts).conf = none) ∧
    (∀ (i : Nat) (e : ε), (lookupErrors ff ⟨opts⟩)[i]? = some (some e) →
      (∀ j, j < i → (lookupErrors ff ⟨opts⟩)[j]? = some none) →
      (ReadConfigFromAppOpts ff opts).err = some e ∧
        (ReadConfigFromAppOpts ff opts).conf = none) ∧
    (∀ (i : Nat) (e : ε), (lookupErrors ff ⟨opts⟩)[i]? = some (some e) →
      (∀ j, j < 9 → j ≠ i → (lookupErrors ff ⟨opts⟩)[j]? = some none) →
      (ReadConfigFromAppOpts ff opts).err = some e ∧
        (ReadConfigFromAppOpts ff opts).conf = none) := by
  obtain ⟨herr, _, _⟩ := read_characterisation ff opts
  have hfirst : ∀ (i : Nat) (e : ε), (lookupErrors ff ⟨opts⟩)[i]? = some (some e) →
      (∀ j, j < i → (lookupErrors ff ⟨opts⟩)[j]? = some none) →
      (ReadConfigFromAppOpts ff opts).err = some e ∧
        (ReadConfigFromAppOpts ff opts).conf = none := by
    intro i e hi hbefore
    have hsome : (ReadConfigFromAppOpts ff opts).err = some e := by
      rw [herr]
      exact firstError_of_first _ i e hi hbefore
    exact ⟨hsome, read_conf_none_of_err ff opts (by simp [hsome])⟩
  refine ⟨?_, herr, read_conf_none_of_err ff opts, hfirst, ?_⟩
  · rw [herr, Ne, firstError_eq_none_iff]
    simp [lookupErrors]
  · intro i e hi hothers
    have hlen : i < 9 := by
      have h := (List.getElem?_eq_some.mp hi).1
      simpa [lookupErrors, fixedOrder] using h
    exact hfirst i e hi (fun j hj => hothers j (by omega) (by omega))

/-- C2, on the source whose `rpc-retries` is no number: the error of that
lookup comes back and the configuration is nil. -/
theorem ReadConfigFromAppOpts_error_is_first_failure_witness :
    (ReadConfigFromAppOpts scenarioForkFlags badRetriesOpts).err =
      some "unable to cast \"abc\" of type string to uint64" ∧
    (ReadConfigFromAppOpts scenarioForkFlags badRetriesOpts).conf = none :=
  (ReadConfigFromAppOpts_error_is_first_failure scenarioForkFlags badRetriesOpts).2.2.2.2
    1 "unable to cast \"abc\" of type string to uint64" (by decide) (by decide)

/-- C3: round trip.  When the source answers each of the nine typed lookups
with the corresponding field of a configuration `c`, `ReadConfigFromAppOpts`
returns no error and a configuration equal to `c`. -/
theorem ReadConfigFromAppOpts_round_trip {ε : Type} (ff : ForkFlags) (opts : AppOptions ε)
    (c : Config)
    (hURL : opts.getString flags.RPCDialURL = .ok c.ExecutionClient.RPCDialURL)
    (hRetries : opts.getUint64 flags.RPCRetries = .ok c.ExecutionClient.RPCRetries)
    (hTimeout : opts.getTimeDuration flags.RPCTimeout = .ok c.ExecutionClient.RPCTimeout)
    (hJWT : opts.getString flags.JWTSecretPath = .ok c.ExecutionClient.JWTSecretPath)
    (hChain : opts.getUint64 flags.RequiredChainID = .ok c.ExecutionClient.RequiredChainID)
    (hAltair : opts.getEpoch ff.AltairForkEpoch = .ok c.BeaconConfig.AltairForkEpoch)
    (hBellatrix : opts.getEpoch ff.BellatrixForkEpoch = .ok c.BeaconConfig.BellatrixForkEpoch)
    (hCapella : opts.getEpoch ff.CapellaForkEpoch = .ok c.BeaconConfig.CapellaForkEpoch)
    (hDeneb : opts.getEpoch flags.DenebForkEpoch = .ok c.BeaconConfig.DenebForkEpoch) :
    (ReadConfigFromAppOpts ff opts).conf = some c ∧
    (ReadConfigFromAppOpts ff opts).err = none := by
  simp [ReadConfigFromAppOpts, readConfigFromAppOptsParser, AppOptionsParser.GetString,
    AppOptionsParser.GetUint64, AppOptionsParser.GetTimeDuration, AppOptionsParser.GetEpoch,
    hURL, hRetries, hTimeout, hJWT, hChain, hAltair, hBellatrix, hCapella, hDeneb]

/-- C3, on the scenario of the specification: retries 5, timeout 2 seconds and
Deneb fork epoch 100 come back. -/
theorem ReadConfigFromAppOpts_round_trip_witness :
    ((ReadConfigFromAppOpts scenarioForkFlags scenarioOpts).conf = some scenarioConfig ∧
      (ReadConfigFromAppOpts scenarioForkFlags scenarioOpts).err = none) ∧
    scenarioConfig.ExecutionClient.RPCRetries = 5 ∧
    scenarioConfig.ExecutionClient.RPCTimeout = 2 * Second ∧
    scenarioConfig.BeaconConfig.DenebForkEpoch = 100 :=
  ⟨ReadConfigFromAppOpts_round_trip scenarioForkFlags scenarioOpts scenarioConfig
      rfl rfl rfl rfl rfl rfl rfl rfl rfl,
    by decide, by decide, by decide⟩

/-- C9: `MustReadConfigFromAppOpts` panics exactly when `ReadConfigFromAppOpts`
returns an error, with that error as panic value; otherwise it returns the
configuration that `ReadConfigFromAppOpts` returns, which is not nil. -/
theorem MustReadConfigFromAppOpts_panics_iff_error {ε : Type} (ff : ForkFlags)
    (opts : AppOptions ε) :
    (∀ e : ε, MustReadConfigFromAppOpts ff opts = .panicked e ↔
      (ReadConfigFromAppOpts ff opts).err = some e) ∧
    ((∃ e : ε, MustReadConfigFromAppOpts ff opts = .panicked e) ↔
      (ReadConfigFromAppOpts ff opts).err ≠ none) ∧
    (∀ v : Option Config, MustReadConfigFromAppOpts ff opts = .returned v ↔
      (ReadConfigFromAppOpts ff opts).err = none ∧ v = (ReadConfigFromAppOpts ff opts).conf) ∧
    (∀ v : Option Config, MustReadConfigFromAppOpts ff opts = .returned v → v ≠ none) := by
  obtain ⟨_, _, hconf⟩ := read_characterisation ff opts
  cases herr : (ReadConfigFromAppOpts ff opts).err with
  | none =>
    have hne := hconf.mp herr
    refine ⟨?_, ?_, ?_, ?_⟩
    · simp [MustReadConfigFromAppOpts, herr]
    · simp [MustReadConfigFromAppOpts, herr]
    · intro v
      simp [MustReadConfigFromAppOpts, herr, eq_comm]
    · intro v hv
      simp [MustReadConfigFromAppOpts, herr] at hv
      rw [← hv]
      exact hne
  | some e0 =>
    refine ⟨?_, ?_, ?_, ?_⟩
    · simp [MustReadConfigFromAppOpts, herr]
    · simp [MustReadConfigFromAppOpts, herr]
    · simp [MustReadConfigFromAppOpts, herr]
    · simp [MustReadConfigFromAppOpts, herr]

/-- C10: the calls made by the resolver are the calls of the fixed order up to
and including the first failing one, all nine when none fails; they form an
initial segment of the fixed order, so no call is repeated.  When the dial-URL
lookup fails, it is the only call made, its error is returned and no fork
epoch is asked for. -/
theorem lookups_stop_at_first_failure {ε : Type} (ff : ForkFlags) (opts : AppOptions ε) :
    (ReadConfigFromAppOpts ff opts).lookups = throughFirstFailure ⟨opts⟩ (fixedOrder ff) ∧
    (ReadConfigFromAppOpts ff opts).lookups <+: fixedOrder ff ∧
    ((ReadConfigFromAppOpts ff opts).err = none →
      (ReadConfigFromAppOpts ff opts).lookups = fixedOrder ff) ∧
    (∀ (i : Nat) (e : ε), (lookupErrors ff ⟨opts⟩)[i]? = some (some e) →
      (∀ j, j < i → (lookupErrors ff ⟨opts⟩)[j]? = some none) →
      (ReadConfigFromAppOpts ff opts).lookups = (fixedOrder ff).take (i + 1) ∧
        (ReadConfigFromAppOpts ff opts).err = some e) ∧
    ((fixedOrder ff).Nodup → (ReadConfigFromAppOpts ff opts).lookups.Nodup) ∧
    (∀ e : ε, opts.getString flags.RPCDialURL = .error e →
      (ReadConfigFromAppOpts ff opts).lookups = [⟨.GetString, flags.RPCDialURL⟩] ∧
        (ReadConfigFromAppOpts ff opts).err = some e ∧
        (ReadConfigFromAppOpts ff opts).conf = none ∧
        ∀ c ∈ (ReadConfigFromAppOpts ff opts).lookups, c.getter ≠ .GetEpoch) := by
  obtain ⟨herr, hlook, _⟩ := read_characterisation ff opts
  have hpre : (ReadConfigFromAppOpts ff opts).lookups <+: fixedOrder ff := by
    rw [hlook]
    exact throughFirstFailure_prefix _ _
  refine ⟨hlook, hpre, read_lookups_of_ok ff opts, ?_, ?_, ?_⟩
  · intro i e hi hbefore
    constructor
    · rw [hlook]
      exact throughFirstFailure_take _ _ i e hi hbefore
    · rw [herr]
      exact firstError_of_first _ i e hi hbefore
  · intro hnodup
    exact hpre.sublist.nodup hnodup
  · intro e he
    simp [ReadConfigFromAppOpts, readConfigFromAppOptsParser, AppOptionsParser.GetString, he]

/-- C10, on the source without dial URL: one call, the error of the missing
key, and the whole trace without repetition. -/
theorem lookups_stop_at_first_failure_witness :
    ((ReadConfigFromAppOpts scenarioForkFlags noDialURLOpts).lookups =
        [⟨.GetString, "beacon-kit.engine.rpc-dial-url"⟩] ∧
      (ReadConfigFromAppOpts scenarioForkFlags noDialURLOpts).err =
        some "missing key: beacon-kit.engine.rpc-dial-url" ∧
      (ReadConfigFromAppOpts scenarioForkFlags noDialURLOpts).conf = none ∧
      ∀ c ∈ (ReadConfigFromAppOpts scenarioForkFlags noDialURLOpts).lookups,
        c.getter ≠ .GetEpoch) ∧
    (ReadConfigFromAppOpts scenarioForkFlags scenarioOpts).lookups.Nodup :=
  ⟨(lookups_stop_at_first_failure scenarioForkFlags noDialURLOpts).2.2.2.2.2
      "missing key: beacon-kit.engine.rpc-dial-url" rfl,
    (lookups_stop_at_first_failure scenarioForkFlags scenarioOpts).2.2.2.2.1 (by decide)⟩

/-! ### Flag registration -/

/-- On a command without flags, the five registrations go through. -/
theorem AddExecutionClientFlags_nil :
    AddExecutionClientFlags [] = ⟨executionClientFlags, none⟩ := by
  decide

/-- C8, refuted as stated: on the scenario source the resolver looks up the
Deneb fork epoch key, and `AddExecutionClientFlags` registers no flag of that
name. -/
theorem registered_flags_differ_from_lookups :
    flags.DenebForkEpoch ∈
      (ReadConfigFromAppOpts scenarioForkFlags scenarioOpts).lookups.map Call.key ∧
    flags.DenebForkEpoch ∉ (AddExecutionClientFlags []).flagSet.map Flag.name := by
  decide

/-- C8, amended: every flag name registered by `AddExecutionClientFlags` is a
key that a successful resolution looks up; the keys looked up are the five
registered names together with the four fork epoch keys; the registered names
are the keys of the first five lookups, the execution-client ones; and the
Deneb fork epoch key has no registered flag. -/
theorem registered_flags_are_execution_client_lookups {ε : Type} (ff : ForkFlags)
    (opts : AppOptions ε) (hok : (ReadConfigFromAppOpts ff opts).err = none) :
    (∀ name ∈ (AddExecutionClientFlags []).flagSet.map Flag.name,
      name ∈ (ReadConfigFromAppOpts ff opts).lookups.map Call.key) ∧
    (∀ key, key ∈ (ReadConfigFromAppOpts ff opts).lookups.map Call.key ↔
      key ∈ (AddExecutionClientFlags []).flagSet.map Flag.name ∨
      key ∈ [ff.AltairForkEpoch, ff.BellatrixForkEpoch, ff.CapellaForkEpoch,
        flags.DenebForkEpoch]) ∧
    (∀ key, key ∈ (AddExecutionClientFlags []).flagSet.map Flag.name ↔
      key ∈ ((ReadConfigFromAppOpts ff opts).lookups.take 5).map Call.key) ∧
    flags.DenebForkEpoch ∉ (AddExecutionClientFlags []).flagSet.map Flag.name ∧
    (AddExecutionClientFlags []).panicValue = none := by
  rw [read_lookups_of_ok ff opts hok, AddExecutionClientFlags_nil]
  refine ⟨?_, ?_, ?_, by decide, rfl⟩
  · intro name hname
    simp [executionClientFlags] at hname
    simp [fixedOrder]
    tauto
  · intro key
    simp [executionClientFlags, fixedOrder]
    tauto
  · intro key
    simp [executionClientFlags, fixedOrder]
    tauto

/-- C8, amended, on the scenario source: the registered names are among the
keys looked up. -/
theorem registered_flags_are_execution_client_lookups_witness :
    (ReadConfigFromAppOpts scenarioForkFlags scenarioOpts).err = none ∧
    ∀ name ∈ (AddExecutionClientFlags []).flagSet.map Flag.name,
      name ∈ (ReadConfigFromAppOpts scenarioForkFlags scenarioOpts).lookups.map Call.key :=
  ⟨by decide,
    (registered_flags_are_execution_client_lookups scenarioForkFlags scenarioOpts
      (by decide)).1⟩

end config
